import Mathlib

/-!
Shallow embedding of the assisted-ui-lib presentation-layer helpers and
handlers that the specification's claims concern:

* `BMCForm.tsx`: `getNMState` and `handleSubmit` (the BMC host-addition form);
* `helpers/conditions.ts`: `getClusterValidatedCondition`,
  `getAgentValidatedCondition`;
* the agent-location label helpers `getLocationsFromMatchExpressions` and
  `getAgentLocationMatchExpression`;
* the alerts context (`AlertsContextProvider`, `useAlerts`);
* `ClusterDeploymentDetailsStep`'s next/submit handler;
* `NetworkingStatus`.

Effectful handlers (async submit handlers with try/catch) are embedded as
pure functions from the outcomes of their external calls to the ordered
trace of observable actions they perform (state updates, external calls,
callbacks), plus the resulting local view state.  The external
`js-yaml` `load` function, which throws on malformed input, is modelled
as an explicit parameter of type `String → Except String α` with the
parsed document type `α` kept abstract (the TypeScript code types it
`any`).
-/

/-! ## Data model: BMCForm (`src/cim/components/Agent/BMCForm.tsx`) -/

/-- Kubernetes object metadata as used by `BMCForm` (`metadata?.name`,
`metadata?.namespace`); `nspace` stands for the `namespace` field, which is
a reserved word in Lean. -/
structure ObjectMetadata where
  name : Option String := none
  nspace : Option String := none
deriving Repr, DecidableEq

/-- The `InfraEnvK8sResource` shape used by `BMCForm`: only its optional
`metadata` is read. -/
structure InfraEnvK8sResource where
  metadata : Option ObjectMetadata := none
deriving Repr, DecidableEq

/-- One entry of the `macMapping` field array: a MAC address paired with a
NIC name. -/
structure MacMappingItem where
  macAddress : String
  name : String
deriving Repr, DecidableEq

/-- Type `AddBmcValues`: the values of the BMC form, as witnessed by
`emptyValues` in `BMCForm.tsx`. -/
structure AddBmcValues where
  hostname : String
  bmcAddress : String
  username : String
  password : String
  bootMACAddress : String
  disableCertificateVerification : Bool
  online : Bool
  nmState : String
  macMapping : List MacMappingItem
deriving Repr, DecidableEq

/-- The labels object built by `getNMState`.  `infraEnv` is
`infraEnv.metadata?.name`, hence optional. -/
structure NMStateLabels where
  infraEnv : Option String
  bmcMAC : String
deriving Repr, DecidableEq

/-- The metadata object built by `getNMState`. -/
structure NMStateMetadata where
  generateName : String
  nspace : Option String
  labels : NMStateLabels
deriving Repr, DecidableEq

/-- The spec object built by `getNMState`; `config` is the result of
`yaml.load(values.nmState)`, typed `any` in the source, hence an abstract
type here. -/
structure NMStateSpec (α : Type) where
  config : α
  interfaces : List MacMappingItem
deriving Repr, DecidableEq

/-- The `NMStateConfig` resource object built by `getNMState`. -/
structure NMStateConfig (α : Type) where
  apiVersion : String
  kind : String
  metadata : NMStateMetadata
  spec : NMStateSpec α
deriving Repr, DecidableEq

/-- JavaScript template-literal interpolation of a possibly-undefined
string: an undefined value prints as the string `undefined`. -/
def tsTemplateOpt (o : Option String) : String :=
  match o with
  | some s => s
  | none => "undefined"

/-- Function `getNMState` from `BMCForm.tsx`: builds the NMStateConfig resource
from the form values and the InfraEnv.  `yamlLoad` models the external
`yaml.load`, which either returns a parsed document or throws; the filter
keeps exactly the mac-mapping entries whose `macAddress` and `name` are
both non-empty (JavaScript truthiness of `length`). -/
def getNMState {α : Type} (yamlLoad : String → Except String α)
    (values : AddBmcValues) (infraEnv : InfraEnvK8sResource) :
    Except String (NMStateConfig α) := do
  let config ← yamlLoad values.nmState
  pure
    { apiVersion := "agent-install.openshift.io/v1beta1"
      kind := "NMStateConfig"
      metadata :=
        { generateName := tsTemplateOpt (infraEnv.metadata.bind (fun m => m.name)) ++ "-"
          nspace := infraEnv.metadata.bind (fun m => m.nspace)
          labels :=
            { infraEnv := infraEnv.metadata.bind (fun m => m.name)
              bmcMAC := values.bmcAddress } }
      spec :=
        { config := config
          interfaces := values.macMapping.filter
            (fun m => m.macAddress.length != 0 && m.name.length != 0) } }

/-! ## BMCForm submit handler -/

/-- An observable action of `handleSubmit` in `BMCForm`: a `setError`
state update, an `onCreate` call (with the optional NMState argument), or
an `onClose` call. -/
inductive SubmitEvent (α : Type) where
  | setErr (e : Option String)
  | createCall (nmState : Option (NMStateConfig α))
  | closeCall
deriving Repr, DecidableEq

/-- The outcome of one run of `handleSubmit`: the ordered trace of its
observable actions and the final value of the `error` state. -/
structure SubmitOutcome (α : Type) where
  events : List (SubmitEvent α)
  finalError : Option String
deriving Repr, DecidableEq

/-- Function `handleSubmit` from `BMCForm.tsx`.  The try block first clears the
error state, then computes `nmState` (`undefined` when `hasDHCP`,
otherwise `getNMState`, whose `yaml.load` may throw), then awaits
`onCreate` (whose resolution or rejection message is the
`onCreateResult` parameter) and on success calls `onClose`; the catch
block records the thrown message via `setError`. -/
def handleSubmit {α : Type} (yamlLoad : String → Except String α)
    (hasDHCP : Bool) (values : AddBmcValues) (infraEnv : InfraEnvK8sResource)
    (onCreateResult : Except String Unit) : SubmitOutcome α :=
  let nmStateResult : Except String (Option (NMStateConfig α)) :=
    if hasDHCP then Except.ok none
    else (getNMState yamlLoad values infraEnv).map some
  match nmStateResult with
  | Except.error msg =>
      { events := [SubmitEvent.setErr none, SubmitEvent.setErr (some msg)]
        finalError := some msg }
  | Except.ok nm =>
      match onCreateResult with
      | Except.ok _ =>
          { events := [SubmitEvent.setErr none, SubmitEvent.createCall nm,
              SubmitEvent.closeCall]
            finalError := none }
      | Except.error msg =>
          { events := [SubmitEvent.setErr none, SubmitEvent.createCall nm,
              SubmitEvent.setErr (some msg)]
            finalError := some msg }

/-- Number of `onCreate` calls in a submit outcome. -/
def createCount {α : Type} (o : SubmitOutcome α) : Nat :=
  o.events.countP (fun e =>
    match e with
    | SubmitEvent.createCall _ => true
    | _ => false)

/-- Number of `onClose` calls in a submit outcome. -/
def closeCount {α : Type} (o : SubmitOutcome α) : Nat :=
  o.events.countP (fun e =>
    match e with
    | SubmitEvent.closeCall => true
    | _ => false)

/-- PatternFly alert variants used here. -/
inductive AlertVariantT where
  | danger
  | info
  | warning
deriving Repr, DecidableEq

/-- The inline alert rendered by a component. -/
structure InlineAlert where
  title : String
  variant : AlertVariantT
  isInline : Bool
  body : String
deriving Repr, DecidableEq

/-- The alert `BMCForm` renders from its `error` state: present exactly
when `error` is set, inline, of the danger variant, titled
`Failed to add host`, with the error message as body. -/
def bmcFormAlert (err : Option String) : Option InlineAlert :=
  err.map (fun msg =>
    { title := "Failed to add host"
      variant := AlertVariantT.danger
      isInline := true
      body := msg })

/-! ## Condition lookups (`src/cim/components/helpers/conditions.ts`) -/

/-- A Kubernetes status condition; `condType` stands for the `type` field. -/
structure StatusCondition where
  condType : String
  status : String := ""
  reason : String := ""
  message : String := ""
deriving Repr, DecidableEq

/-- A resource status holding an optional conditions list. -/
structure ResourceStatus where
  conditions : Option (List StatusCondition) := none
deriving Repr, DecidableEq

/-- The `AgentClusterInstallK8sResource` shape used by the condition
lookup: only its optional `status.conditions` is read. -/
structure AgentClusterInstallK8sResource where
  status : Option ResourceStatus := none
deriving Repr, DecidableEq

/-- The `AgentK8sResource` shape used by the condition lookup: only its
optional `status.conditions` is read. -/
structure AgentK8sResource where
  status : Option ResourceStatus := none
deriving Repr, DecidableEq

/-- Function `getClusterValidatedCondition`:
`resource.status?.conditions?.find(c => c.type === 'Validated')`. -/
def getClusterValidatedCondition (resource : AgentClusterInstallK8sResource) :
    Option StatusCondition :=
  (resource.status.bind (fun s => s.conditions)).bind
    (fun cs => cs.find? (fun c => c.condType == "Validated"))

/-- Function `getAgentValidatedCondition`:
`agentClusterInstall.status?.conditions?.find(c => c.type === 'Validated')`. -/
def getAgentValidatedCondition (agentClusterInstall : AgentK8sResource) :
    Option StatusCondition :=
  (agentClusterInstall.status.bind (fun s => s.conditions)).bind
    (fun cs => cs.find? (fun c => c.condType == "Validated"))

/-! ## Agent-location label helpers -/

/-- Modelled from the spec: the `AGENT_LOCATION_LABEL_KEY` constant is
imported from the `common` module, which is not among the provided source
files; it is an opaque fixed label key, and every property proved below is
independent of its concrete value. -/
def AGENT_LOCATION_LABEL_KEY : String := "agent-install.openshift.io/location"

/-- A label-selector match expression (`console-sdk-ai-lib`); `values`
is optional in the SDK type. -/
structure MatchExpression where
  key : String
  operator : String
  values : Option (List String) := none
deriving Repr, DecidableEq

/-- Function `getLocationsFromMatchExpressions`:
`expressions.find(expr => expr.key === AGENT_LOCATION_LABEL_KEY)?.values || []`,
with `[]` as the default argument. -/
def getLocationsFromMatchExpressions
    (expressions : List MatchExpression := []) : List String :=
  ((expressions.find? (fun expr => expr.key == AGENT_LOCATION_LABEL_KEY)).bind
    (fun e => e.values)).getD []

/-- Function `getAgentLocationMatchExpression`: a singleton `In` expression when
`locations?.length` is truthy (defined and non-zero), `undefined`
otherwise. -/
def getAgentLocationMatchExpression (locations : Option (List String) := none) :
    Option (List MatchExpression) :=
  match locations with
  | some ls =>
      if ls.length != 0 then
        some [{ key := AGENT_LOCATION_LABEL_KEY, operator := "In",
                values := some ls }]
      else none
  | none => none

/-! ## Alerts context (`AlertsContext.tsx`) -/

/-- The payload handed to `addAlert` (from the `reducers` module). -/
structure AlertPayload where
  title : String
  message : String := ""
deriving Repr, DecidableEq

/-- Modelled from the spec: the `AlertProps` shape held in the
reducer-backed alert list lives in the `reducers` module, which is not
among the provided source files; the claims below are independent of its
fields. -/
structure AlertProps where
  key : String := ""
  title : String := ""
  message : String := ""
deriving Repr, DecidableEq

/-- An action of `alertsSlice`: the three action creators destructured in
`AlertsContext.tsx`. -/
inductive AlertsSliceAction where
  | addAlert (payload : AlertPayload)
  | removeAlert (alertKey : String)
  | clearAlerts
deriving Repr, DecidableEq

/-- A call to one of the three operations exposed by the alerts context. -/
inductive AlertsContextOp where
  | addAlert (payload : AlertPayload)
  | removeAlert (alertKey : String)
  | clearAlerts
deriving Repr, DecidableEq

/-- The action each context operation dispatches, read off lines 27-29 of
`AlertsContext.tsx`: each operation dispatches exactly the corresponding
`alertsSlice` action with its argument. -/
def opToAction : AlertsContextOp → AlertsSliceAction
  | AlertsContextOp.addAlert p => AlertsSliceAction.addAlert p
  | AlertsContextOp.removeAlert k => AlertsSliceAction.removeAlert k
  | AlertsContextOp.clearAlerts => AlertsSliceAction.clearAlerts

/-- The `alerts` value held by `AlertsContextProvider` after a sequence of
context-operation calls: `React.useReducer(alertsReducer, [])` starts from
the empty list and applies the reducer to each dispatched action in call
order.  The reducer (`alertsSlice.reducer`, imported from the `reducers`
module) is a parameter. -/
def providerAlerts (alertsReducer : List AlertProps → AlertsSliceAction → List AlertProps)
    (ops : List AlertsContextOp) : List AlertProps :=
  ops.foldl (fun s op => alertsReducer s (opToAction op)) []

/-- The alerts context value: the current list plus the three operations,
modelled with unit-returning functions (the TypeScript operations return
`void`/`null`). -/
structure AlertsContextType where
  alerts : List AlertProps
  addAlert : AlertPayload → Unit
  removeAlert : String → Unit
  clearAlerts : Unit → Unit

/-- The default context value passed to `React.createContext` in
`AlertsContext.tsx`: an empty alert list and no-op operations. -/
def defaultAlertsContext : AlertsContextType :=
  { alerts := []
    addAlert := fun _ => ()
    removeAlert := fun _ => ()
    clearAlerts := fun _ => () }

/-- What `createContext` stores as the default: `some` of the default
value, because `AlertsContext` is created with a concrete (non-undefined)
argument. -/
def alertsContextStoredDefault : Option AlertsContextType :=
  some defaultAlertsContext

/-- React `useContext` semantics: the nearest provider's value when one is
present, otherwise the value the context was created with. -/
def reactUseContextAlerts (providerValue : Option AlertsContextType) :
    Option AlertsContextType :=
  match providerValue with
  | some v => some v
  | none => alertsContextStoredDefault

/-- Function `useAlerts`: reads the context and throws
`useAlerts must be used within AlertsContextProvider` when the read value
is undefined, returning the context otherwise. -/
def useAlerts (providerValue : Option AlertsContextType) :
    Except String AlertsContextType :=
  match reactUseContextAlerts providerValue with
  | none => Except.error "useAlerts must be used within AlertsContextProvider"
  | some c => Except.ok c

/-! ## ClusterDeploymentDetailsStep next/submit handler -/

/-- The observable outcome of one activation of the Next action in
`ClusterDeploymentDetailsStep`: the step id passed to `setCurrentStepId`
(when it is called) and the alerts added via `addAlert`. -/
structure DetailsStepOutcome where
  nextStepId : Option String
  addedAlerts : List AlertPayload
deriving Repr, DecidableEq

/-- Function `handleOnNext` composed with `handleSubmit` from
`ClusterDeploymentDetailsStep`: a non-dirty form advances directly via
`next()`; a dirty form submits, and `handleSubmit` awaits `onSaveDetails`
(outcome in `saveResult`), advancing on success and adding the
`Failed to save ClusterDeployment` alert on rejection. -/
def detailsStepHandleOnNext (dirty : Bool) (saveResult : Except String Unit) :
    DetailsStepOutcome :=
  if dirty then
    match saveResult with
    | Except.ok _ => { nextStepId := some "hosts-selection", addedAlerts := [] }
    | Except.error e =>
        { nextStepId := none
          addedAlerts := [{ title := "Failed to save ClusterDeployment",
                            message := e }] }
  else { nextStepId := some "hosts-selection", addedAlerts := [] }

/-! ## NetworkingStatus -/

/-- The `Cluster` shape as far as `NetworkingStatus` is concerned: passed
through opaquely to the NTP-sources dialog toggle. -/
structure Cluster where
  id : String := ""
deriving Repr, DecidableEq

/-- The `Host` shape as far as `NetworkingStatus` is concerned: passed
through opaquely; its `status` field is never read. -/
structure Host where
  id : String := ""
  status : String := ""
deriving Repr, DecidableEq

/-- The `ValidationsInfo` shape (`common/types/hosts`): groups of
validations, all optional; `NetworkingStatus` builds the empty object. -/
structure ValidationsInfo where
  hardware : Option (List String) := none
  network : Option (List String) := none
deriving Repr, DecidableEq

/-- The empty `ValidationsInfo` object literal. -/
def emptyValidationsInfo : ValidationsInfo := {}

/-- The props `NetworkingStatus` hands to `HostStatus`: the spread props
(`host`, `validationsInfo`, ...) followed by the explicit overrides, so
the later `statusOverride`, `validationsInfo` and `sublabel` attributes
win over the spread. -/
structure HostStatusProps where
  host : Host
  statusOverride : Option String
  validationsInfo : ValidationsInfo
  sublabel : Option String
  ntpDialogCluster : Cluster
deriving Repr, DecidableEq

/-- Component `NetworkingStatus`: renders `HostStatus` with `statusOverride`
`'discovering'`, an empty `validationsInfo`, an undefined `sublabel`, and
an NTP-sources toggle bound to the cluster, regardless of the incoming
host and validations props. -/
def NetworkingStatus (cluster : Cluster) (host : Host)
    (validationsInfo : ValidationsInfo) : HostStatusProps :=
  { host := host
    statusOverride := some "discovering"
    validationsInfo := emptyValidationsInfo
    sublabel := none
    ntpDialogCluster := cluster }

/-! ## Sample data shared by the witnesses -/

/-- Sample InfraEnv metadata. -/
def sampleMetadata : ObjectMetadata :=
  { name := some "infra1", nspace := some "ns1" }

/-- Sample InfraEnv resource. -/
def sampleInfraEnv : InfraEnvK8sResource := { metadata := some sampleMetadata }

/-- Sample BMC form values; the second mac-mapping entry has an empty MAC
address and is therefore dropped by `getNMState`. -/
def sampleValues : AddBmcValues :=
  { hostname := "host1"
    bmcAddress := "192.168.1.1"
    username := "admin"
    password := "pw"
    bootMACAddress := "00:aa:bb:cc:dd:ee"
    disableCertificateVerification := true
    online := false
    nmState := "interfaces: eth0"
    macMapping := [{ macAddress := "00:aa:bb:cc:dd:ee", name := "eth0" },
                   { macAddress := "", name := "eth1" }] }

/-- A yaml loader that succeeds on every input (documents modelled by
`Unit`). -/
def okYamlLoad : String → Except String Unit := fun _ => Except.ok ()

/-- A yaml loader that throws on every input, as `js-yaml` does on
malformed documents. -/
def badYamlLoad : String → Except String Unit :=
  fun _ => Except.error "YAMLException: unexpected end of the stream"

/-- Form values whose `nmState` field is not valid YAML. -/
def badValues : AddBmcValues := { sampleValues with nmState := "[" }

/-! ## Helper lemmas -/

/-- A string has length zero exactly when it is empty. -/
theorem string_length_eq_zero_iff (s : String) : s.length = 0 ↔ s = "" := by
  constructor
  · intro h
    cases s with
    | mk data =>
      cases data with
      | nil => rfl
      | cons a t => simp [String.length] at h
  · intro h
    rw [h]
    rfl

/-! ## C2: getNMState is a pure mapping -/

/-- C2: `getNMState` maps form values and an InfraEnv to an NMStateConfig
whose apiVersion is `agent-install.openshift.io/v1beta1`, kind is
`NMStateConfig`, generateName is the InfraEnv name followed by `-`,
namespace is the InfraEnv namespace, labels are the InfraEnv name and
`values.bmcAddress`, spec.config is the YAML-parse of `values.nmState`,
and spec.interfaces is exactly the subsequence of `values.macMapping`
whose entries have both fields non-empty, in their original order. -/
theorem C2_getNMState_mapping {α : Type} (yamlLoad : String → Except String α)
    (values : AddBmcValues) (infraEnv : InfraEnvK8sResource)
    (md : ObjectMetadata) (n : String) (c : α)
    (hmd : infraEnv.metadata = some md) (hn : md.name = some n)
    (hy : yamlLoad values.nmState = Except.ok c) :
    getNMState yamlLoad values infraEnv = Except.ok
      { apiVersion := "agent-install.openshift.io/v1beta1"
        kind := "NMStateConfig"
        metadata :=
          { generateName := n ++ "-"
            nspace := md.nspace
            labels := { infraEnv := some n, bmcMAC := values.bmcAddress } }
        spec :=
          { config := c
            interfaces := values.macMapping.filter
              (fun m => m.macAddress.length != 0 && m.name.length != 0) } } ∧
    (values.macMapping.filter
      (fun m => m.macAddress.length != 0 && m.name.length != 0)).Sublist
      values.macMapping ∧
    ∀ m, (m ∈ values.macMapping.filter
        (fun m => m.macAddress.length != 0 && m.name.length != 0) ↔
      m ∈ values.macMapping ∧ m.macAddress ≠ "" ∧ m.name ≠ "") := by
  refine ⟨?_, List.filter_sublist _, ?_⟩
  · simp [getNMState, hy, hmd, hn, tsTemplateOpt]
  · intro m
    rw [List.mem_filter]
    constructor
    · rintro ⟨hm, hp⟩
      rw [Bool.and_eq_true, bne_iff_ne, bne_iff_ne] at hp
      exact ⟨hm, fun h => hp.1 (by rw [h]; rfl),
        fun h => hp.2 (by rw [h]; rfl)⟩
    · rintro ⟨hm, h1, h2⟩
      refine ⟨hm, ?_⟩
      rw [Bool.and_eq_true, bne_iff_ne, bne_iff_ne]
      exact ⟨fun h => h1 ((string_length_eq_zero_iff _).mp h),
        fun h => h2 ((string_length_eq_zero_iff _).mp h)⟩

/-- C2 witness: `getNMState` on concrete sample inputs produces the
concrete NMStateConfig, via the theorem instantiated there. -/
theorem C2_witness :
    sampleInfraEnv.metadata = some sampleMetadata ∧
    sampleMetadata.name = some "infra1" ∧
    okYamlLoad sampleValues.nmState = Except.ok () ∧
    getNMState okYamlLoad sampleValues sampleInfraEnv = Except.ok
      { apiVersion := "agent-install.openshift.io/v1beta1"
        kind := "NMStateConfig"
        metadata :=
          { generateName := "infra1-"
            nspace := some "ns1"
            labels := { infraEnv := some "infra1", bmcMAC := "192.168.1.1" } }
        spec :=
          { config := ()
            interfaces := [{ macAddress := "00:aa:bb:cc:dd:ee",
                             name := "eth0" }] } } := by
  refine ⟨rfl, rfl, rfl, ?_⟩
  have h := (C2_getNMState_mapping okYamlLoad sampleValues sampleInfraEnv
    sampleMetadata "infra1" () rfl rfl rfl).1
  exact h

/-! ## C1: BMCForm submit error handling -/

/-- C1: when `onCreate` rejects, `handleSubmit` records the message in
the `error` state (shown as the inline danger alert titled
`Failed to add host`), does not call `onClose`, does not retry `onCreate`
(exactly one call), and performs nothing else (the full trace is clear
error, create, record error); when `onCreate` resolves, `onClose` is
called exactly once.  The hypothesis restricts to runs in which
`onCreate` is actually reached (`hasDHCP`, or the NMState YAML parses). -/
theorem C1_handleSubmit_error_handling {α : Type}
    (yamlLoad : String → Except String α) (hasDHCP : Bool)
    (values : AddBmcValues) (infraEnv : InfraEnvK8sResource)
    (onCreateResult : Except String Unit)
    (hnm : hasDHCP = true ∨ ∃ c, yamlLoad values.nmState = Except.ok c) :
    (∀ msg, onCreateResult = Except.error msg →
      (handleSubmit yamlLoad hasDHCP values infraEnv onCreateResult).finalError
          = some msg ∧
      bmcFormAlert
          (handleSubmit yamlLoad hasDHCP values infraEnv onCreateResult).finalError
        = some { title := "Failed to add host", variant := AlertVariantT.danger,
                 isInline := true, body := msg } ∧
      SubmitEvent.closeCall ∉
        (handleSubmit yamlLoad hasDHCP values infraEnv onCreateResult).events ∧
      createCount (handleSubmit yamlLoad hasDHCP values infraEnv onCreateResult)
          = 1 ∧
      ∃ nm, (handleSubmit yamlLoad hasDHCP values infraEnv onCreateResult).events
        = [SubmitEvent.setErr none, SubmitEvent.createCall nm,
           SubmitEvent.setErr (some msg)]) ∧
    (onCreateResult = Except.ok () →
      closeCount (handleSubmit yamlLoad hasDHCP values infraEnv onCreateResult)
        = 1) := by
  have hok : ∃ nm, (if hasDHCP then Except.ok none
      else (getNMState yamlLoad values infraEnv).map some)
        = Except.ok (nm : Option (NMStateConfig α)) := by
    rcases hnm with hdhcp | ⟨c, hc⟩
    · exact ⟨none, by rw [hdhcp]; rfl⟩
    · cases hasDHCP with
      | true => exact ⟨none, rfl⟩
      | false =>
        refine ⟨some
          { apiVersion := "agent-install.openshift.io/v1beta1"
            kind := "NMStateConfig"
            metadata :=
              { generateName :=
                  tsTemplateOpt (infraEnv.metadata.bind (fun m => m.name)) ++ "-"
                nspace := infraEnv.metadata.bind (fun m => m.nspace)
                labels :=
                  { infraEnv := infraEnv.metadata.bind (fun m => m.name)
                    bmcMAC := values.bmcAddress } }
            spec :=
              { config := c
                interfaces := values.macMapping.filter
                  (fun m => m.macAddress.length != 0 && m.name.length != 0) } },
            ?_⟩
        simp [getNMState, hc, Except.map]
  obtain ⟨nm, hnmr⟩ := hok
  constructor
  · intro msg hmsg
    rw [hmsg]
    unfold handleSubmit
    rw [hnmr]
    refine ⟨rfl, rfl, ?_, ?_, ⟨nm, rfl⟩⟩
    · intro hmem
      simp at hmem
    · simp [createCount, List.countP_cons]
  · intro hokr
    rw [hokr]
    unfold handleSubmit
    rw [hnmr]
    simp [closeCount, List.countP_cons]

/-- C1 witness: the theorem instantiated at concrete inputs, on both the
rejecting and the resolving runs. -/
theorem C1_witness :
    (true = true ∨ ∃ c, okYamlLoad sampleValues.nmState = Except.ok c) ∧
    (handleSubmit okYamlLoad true sampleValues sampleInfraEnv
        (Except.error "request failed")).finalError = some "request failed" ∧
    SubmitEvent.closeCall ∉
      (handleSubmit okYamlLoad true sampleValues sampleInfraEnv
        (Except.error "request failed")).events ∧
    createCount (handleSubmit okYamlLoad true sampleValues sampleInfraEnv
        (Except.error "request failed")) = 1 ∧
    closeCount (handleSubmit okYamlLoad true sampleValues sampleInfraEnv
        (Except.ok ())) = 1 := by
  have herr := (C1_handleSubmit_error_handling okYamlLoad true sampleValues
    sampleInfraEnv (Except.error "request failed") (Or.inl rfl)).1
    "request failed" rfl
  have hokc := (C1_handleSubmit_error_handling okYamlLoad true sampleValues
    sampleInfraEnv (Except.ok ()) (Or.inl rfl)).2 rfl
  exact ⟨Or.inl rfl, herr.1, herr.2.2.1, herr.2.2.2.1, hokc⟩

/-! ## C7: number of onCreate calls per submission -/

/-- C7 counterexample: with `hasDHCP` unset and an `nmState` value that
`yaml.load` rejects (here the single character `[`), the try block throws
inside `getNMState` before `onCreate` is reached, so `onCreate` is awaited
zero times, not exactly once. -/
theorem C7_counterexample :
    createCount (handleSubmit badYamlLoad false badValues sampleInfraEnv
      (Except.ok ())) = 0 ∧
    ¬ createCount (handleSubmit badYamlLoad false badValues sampleInfraEnv
      (Except.ok ())) = 1 := by
  exact ⟨rfl, by decide⟩

/-- C7 amended: every run of `handleSubmit` awaits `onCreate` at most
once; it awaits it exactly once whenever `hasDHCP` is set or
`yaml.load(values.nmState)` succeeds, and zero times when `hasDHCP` is
unset and `yaml.load` throws — regardless of whether the `onCreate` call
itself succeeds or fails. -/
theorem C7_amended_create_call_count {α : Type}
    (yamlLoad : String → Except String α) (hasDHCP : Bool)
    (values : AddBmcValues) (infraEnv : InfraEnvK8sResource)
    (onCreateResult : Except String Unit) :
    createCount (handleSubmit yamlLoad hasDHCP values infraEnv onCreateResult)
        ≤ 1 ∧
    ((hasDHCP = true ∨ ∃ c, yamlLoad values.nmState = Except.ok c) →
      createCount (handleSubmit yamlLoad hasDHCP values infraEnv onCreateResult)
        = 1) ∧
    ((hasDHCP = false ∧ ∃ msg, yamlLoad values.nmState = Except.error msg) →
      createCount (handleSubmit yamlLoad hasDHCP values infraEnv onCreateResult)
        = 0) := by
  refine ⟨?_, ?_, ?_⟩
  · unfold handleSubmit
    cases hnm : (if hasDHCP then Except.ok none
        else (getNMState yamlLoad values infraEnv).map some :
          Except String (Option (NMStateConfig α))) with
    | error msg => simp [createCount, List.countP_cons]
    | ok nm =>
      cases onCreateResult with
      | ok u => simp [createCount, List.countP_cons]
      | error msg => simp [createCount, List.countP_cons]
  · intro hnm
    have hok : ∃ nm, (if hasDHCP then Except.ok none
        else (getNMState yamlLoad values infraEnv).map some)
          = Except.ok (nm : Option (NMStateConfig α)) := by
      rcases hnm with hdhcp | ⟨c, hc⟩
      · exact ⟨none, by rw [hdhcp]; rfl⟩
      · cases hasDHCP with
        | true => exact ⟨none, rfl⟩
        | false =>
          cases hg : getNMState yamlLoad values infraEnv with
          | ok v => exact ⟨some v, by simp [hg, Except.map]⟩
          | error e =>
            rw [getNMState, hc] at hg
            simp [pure, Except.pure, Bind.bind, Except.bind] at hg
    obtain ⟨nm, hnmr⟩ := hok
    unfold handleSubmit
    rw [hnmr]
    cases onCreateResult with
    | ok u => simp [createCount, List.countP_cons]
    | error msg => simp [createCount, List.countP_cons]
  · rintro ⟨hdhcp, msg, hmsg⟩
    unfold handleSubmit
    rw [hdhcp]
    have hg : getNMState yamlLoad values infraEnv = Except.error msg := by
      rw [getNMState, hmsg]
      rfl
    simp [hg, createCount, List.countP_cons, Except.map]

/-- C7 amended witness: the amended theorem instantiated at concrete
inputs on both sides. -/
theorem C7_amended_witness :
    (true = true ∨ ∃ c, okYamlLoad sampleValues.nmState = Except.ok c) ∧
    createCount (handleSubmit okYamlLoad true sampleValues sampleInfraEnv
      (Except.ok ())) = 1 ∧
    (false = false ∧ ∃ msg, badYamlLoad badValues.nmState = Except.error msg) ∧
    createCount (handleSubmit badYamlLoad false badValues sampleInfraEnv
      (Except.ok ())) = 0 := by
  have h1 := (C7_amended_create_call_count okYamlLoad true sampleValues
    sampleInfraEnv (Except.ok ())).2.1 (Or.inl rfl)
  have h2 := (C7_amended_create_call_count badYamlLoad false badValues
    sampleInfraEnv (Except.ok ())).2.2
    ⟨rfl, "YAMLException: unexpected end of the stream", rfl⟩
  exact ⟨Or.inl rfl, h1,
    ⟨rfl, "YAMLException: unexpected end of the stream", rfl⟩, h2⟩

/-! ## C3: details step navigation -/

/-- C3: the wizard advances to `hosts-selection` if and only if
`onSaveDetails` resolved successfully or the Next action was taken with a
non-dirty form; on rejection the `Failed to save ClusterDeployment` alert
is added and `setCurrentStepId` is not called. -/
theorem C3_details_step_navigation (dirty : Bool)
    (saveResult : Except String Unit) :
    ((detailsStepHandleOnNext dirty saveResult).nextStepId
        = some "hosts-selection" ↔
      saveResult = Except.ok () ∨ dirty = false) ∧
    (∀ e, dirty = true → saveResult = Except.error e →
      (detailsStepHandleOnNext dirty saveResult).nextStepId = none ∧
      (detailsStepHandleOnNext dirty saveResult).addedAlerts
        = [{ title := "Failed to save ClusterDeployment", message := e }]) ∧
    (dirty = false →
      (detailsStepHandleOnNext dirty saveResult).nextStepId
          = some "hosts-selection" ∧
      (detailsStepHandleOnNext dirty saveResult).addedAlerts = []) := by
  cases dirty with
  | false =>
    cases saveResult with
    | ok u => simp [detailsStepHandleOnNext]
    | error e => simp [detailsStepHandleOnNext]
  | true =>
    cases saveResult with
    | ok u => simp [detailsStepHandleOnNext]
    | error e => simp [detailsStepHandleOnNext]

/-- C3 witness: the theorem instantiated on a dirty form whose save
rejects, and on a non-dirty form. -/
theorem C3_witness :
    (detailsStepHandleOnNext true (Except.error "409 conflict")).nextStepId
        = none ∧
    (detailsStepHandleOnNext true (Except.error "409 conflict")).addedAlerts
        = [{ title := "Failed to save ClusterDeployment",
             message := "409 conflict" }] ∧
    (detailsStepHandleOnNext false (Except.ok ())).nextStepId
        = some "hosts-selection" := by
  have h1 := (C3_details_step_navigation true (Except.error "409 conflict")).2.1
    "409 conflict" rfl rfl
  have h2 := (C3_details_step_navigation false (Except.ok ())).2.2 rfl
  exact ⟨h1.1, h1.2, h2.1⟩

/-! ## C4: validated-condition lookups -/

/-- C4: `getClusterValidatedCondition` and `getAgentValidatedCondition`
return the first element of `status.conditions` whose type is
`Validated`: whenever the conditions list is present and splits as a
prefix with no `Validated` type followed by a `Validated` condition, that
condition is returned (completeness), every returned condition is such a
first match (soundness), and the result is none when `status` is absent,
when `conditions` is absent, or when no element has that type; being pure
functions of the resource they leave it unchanged. -/
theorem C4_validated_condition_lookup
    (resource : AgentClusterInstallK8sResource) (agent : AgentK8sResource) :
    ((∀ s cs c l1 l2, resource.status = some s → s.conditions = some cs →
        cs = l1 ++ c :: l2 → c.condType = "Validated" →
        (∀ x ∈ l1, x.condType ≠ "Validated") →
        getClusterValidatedCondition resource = some c) ∧
      (∀ c, getClusterValidatedCondition resource = some c →
        c.condType = "Validated" ∧
        ∃ s cs l1 l2, resource.status = some s ∧ s.conditions = some cs ∧
          cs = l1 ++ c :: l2 ∧ ∀ x ∈ l1, x.condType ≠ "Validated") ∧
      (resource.status = none → getClusterValidatedCondition resource = none) ∧
      (∀ s, resource.status = some s → s.conditions = none →
        getClusterValidatedCondition resource = none) ∧
      (∀ s cs, resource.status = some s → s.conditions = some cs →
        (∀ x ∈ cs, x.condType ≠ "Validated") →
        getClusterValidatedCondition resource = none)) ∧
    ((∀ s cs c l1 l2, agent.status = some s → s.conditions = some cs →
        cs = l1 ++ c :: l2 → c.condType = "Validated" →
        (∀ x ∈ l1, x.condType ≠ "Validated") →
        getAgentValidatedCondition agent = some c) ∧
      (∀ c, getAgentValidatedCondition agent = some c →
        c.condType = "Validated" ∧
        ∃ s cs l1 l2, agent.status = some s ∧ s.conditions = some cs ∧
          cs = l1 ++ c :: l2 ∧ ∀ x ∈ l1, x.condType ≠ "Validated") ∧
      (agent.status = none → getAgentValidatedCondition agent = none) ∧
      (∀ s, agent.status = some s → s.conditions = none →
        getAgentValidatedCondition agent = none) ∧
      (∀ s cs, agent.status = some s → s.conditions = some cs →
        (∀ x ∈ cs, x.condType ≠ "Validated") →
        getAgentValidatedCondition agent = none)) := by
  constructor
  · refine ⟨?_, ?_, ?_, ?_, ?_⟩
    · intro s cs c l1 l2 hst hcs hsplit hkey hfirst
      rw [getClusterValidatedCondition, hst, Option.some_bind, hcs,
        Option.some_bind]
      rw [List.find?_eq_some]
      refine ⟨by simpa using hkey, l1, l2, hsplit, ?_⟩
      intro x hx
      simpa using hfirst x hx
    · intro c hc
      rw [getClusterValidatedCondition] at hc
      rcases hst : resource.status with _ | s
      · rw [hst] at hc; simp [Option.bind] at hc
      · rw [hst] at hc
        rcases hcs : s.conditions with _ | cs
        · rw [Option.some_bind, hcs] at hc; simp [Option.bind] at hc
        · rw [Option.some_bind, hcs, Option.some_bind] at hc
          obtain ⟨hp, l1, l2, hsplit, hnone⟩ := List.find?_eq_some.mp hc
          refine ⟨by simpa using hp, s, cs, l1, l2, rfl, hcs, hsplit, ?_⟩
          intro x hx
          have := hnone x hx
          simpa using this
    · intro hst
      rw [getClusterValidatedCondition, hst]
      rfl
    · intro s hst hcs
      rw [getClusterValidatedCondition, hst, Option.some_bind, hcs]
      rfl
    · intro s cs hst hcs hall
      rw [getClusterValidatedCondition, hst, Option.some_bind, hcs,
        Option.some_bind]
      rw [List.find?_eq_none]
      intro x hx
      simpa using hall x hx
  · refine ⟨?_, ?_, ?_, ?_, ?_⟩
    · intro s cs c l1 l2 hst hcs hsplit hkey hfirst
      rw [getAgentValidatedCondition, hst, Option.some_bind, hcs,
        Option.some_bind]
      rw [List.find?_eq_some]
      refine ⟨by simpa using hkey, l1, l2, hsplit, ?_⟩
      intro x hx
      simpa using hfirst x hx
    · intro c hc
      rw [getAgentValidatedCondition] at hc
      rcases hst : agent.status with _ | s
      · rw [hst] at hc; simp [Option.bind] at hc
      · rw [hst] at hc
        rcases hcs : s.conditions with _ | cs
        · rw [Option.some_bind, hcs] at hc; simp [Option.bind] at hc
        · rw [Option.some_bind, hcs, Option.some_bind] at hc
          obtain ⟨hp, l1, l2, hsplit, hnone⟩ := List.find?_eq_some.mp hc
          refine ⟨by simpa using hp, s, cs, l1, l2, rfl, hcs, hsplit, ?_⟩
          intro x hx
          have := hnone x hx
          simpa using this
    · intro hst
      rw [getAgentValidatedCondition, hst]
      rfl
    · intro s hst hcs
      rw [getAgentValidatedCondition, hst, Option.some_bind, hcs]
      rfl
    · intro s cs hst hcs hall
      rw [getAgentValidatedCondition, hst, Option.some_bind, hcs,
        Option.some_bind]
      rw [List.find?_eq_none]
      intro x hx
      simpa using hall x hx

/-- A non-Validated sample condition. -/
def condReady : StatusCondition := { condType := "Ready", status := "True" }

/-- A Validated sample condition. -/
def condValidated : StatusCondition :=
  { condType := "Validated", status := "True" }

/-- A sample AgentClusterInstall whose second condition is the Validated
one. -/
def sampleACI : AgentClusterInstallK8sResource :=
  { status := some { conditions := some [condReady, condValidated] } }

/-- A sample Agent whose status has no conditions list. -/
def sampleAgent : AgentK8sResource := { status := some { conditions := none } }

/-- C4 witness: on a concrete resource whose second condition is the
`Validated` one, the completeness direction returns it; on a concrete
resource without a conditions list the result is none — both via the
theorem. -/
theorem C4_witness :
    getClusterValidatedCondition sampleACI = some condValidated ∧
    condValidated.condType = "Validated" ∧
    getAgentValidatedCondition sampleAgent = none := by
  have h0 := (C4_validated_condition_lookup sampleACI sampleAgent).1.1
    { conditions := some [condReady, condValidated] }
    [condReady, condValidated] condValidated [condReady] []
    rfl rfl rfl rfl (by decide)
  have h1 := ((C4_validated_condition_lookup sampleACI sampleAgent).1.2.1
    condValidated h0).1
  have h2 := (C4_validated_condition_lookup sampleACI sampleAgent).2.2.2.2.1
    { conditions := none } rfl rfl
  exact ⟨h0, h1, h2⟩

/-! ## C5: location extraction from match expressions -/

/-- C5: `getLocationsFromMatchExpressions` returns the `values` of the
first expression whose key is `AGENT_LOCATION_LABEL_KEY` (its `values`
when present, the empty list when that expression has none), and returns
the empty list when no expression has that key or when the argument is
the default empty list. -/
theorem C5_locations_from_match_expressions
    (expressions : List MatchExpression) :
    (∀ e l1 l2, expressions = l1 ++ e :: l2 →
      e.key = AGENT_LOCATION_LABEL_KEY →
      (∀ x ∈ l1, x.key ≠ AGENT_LOCATION_LABEL_KEY) →
      getLocationsFromMatchExpressions expressions = e.values.getD []) ∧
    ((∀ x ∈ expressions, x.key ≠ AGENT_LOCATION_LABEL_KEY) →
      getLocationsFromMatchExpressions expressions = []) ∧
    getLocationsFromMatchExpressions [] = [] := by
  refine ⟨?_, ?_, rfl⟩
  · intro e l1 l2 hsplit hkey hfirst
    have hfind : expressions.find?
        (fun expr => expr.key == AGENT_LOCATION_LABEL_KEY) = some e := by
      rw [List.find?_eq_some]
      refine ⟨by simpa using hkey, l1, l2, hsplit, ?_⟩
      intro x hx
      simpa using hfirst x hx
    rw [getLocationsFromMatchExpressions, hfind]
    rfl
  · intro hall
    have hfind : expressions.find?
        (fun expr => expr.key == AGENT_LOCATION_LABEL_KEY) = none := by
      rw [List.find?_eq_none]
      intro x hx
      simpa using hall x hx
    rw [getLocationsFromMatchExpressions, hfind]
    rfl

/-- A sample expression list whose second entry carries the agent
location key. -/
def sampleExpressions : List MatchExpression :=
  [{ key := "other-key", operator := "In", values := some ["x"] },
   { key := AGENT_LOCATION_LABEL_KEY, operator := "In",
     values := some ["loc1", "loc2"] }]

/-- C5 witness: extraction on a concrete expression list, via the
theorem. -/
theorem C5_witness :
    getLocationsFromMatchExpressions sampleExpressions = ["loc1", "loc2"] ∧
    getLocationsFromMatchExpressions [] = [] := by
  have h := (C5_locations_from_match_expressions sampleExpressions).1
    { key := AGENT_LOCATION_LABEL_KEY, operator := "In",
      values := some ["loc1", "loc2"] }
    [{ key := "other-key", operator := "In", values := some ["x"] }] []
    rfl rfl (by decide)
  exact ⟨h, rfl⟩

/-! ## C8: round trip between the two location helpers -/

/-- C8: for every non-empty location list the two helpers round-trip
(`getLocationsFromMatchExpressions` recovers the list from
`getAgentLocationMatchExpression`); for an undefined or empty list
`getAgentLocationMatchExpression` returns none, and
`getLocationsFromMatchExpressions` on its default empty argument returns
the empty list. -/
theorem C8_location_roundtrip :
    (∀ ls : List String, ls ≠ [] →
      getLocationsFromMatchExpressions
        ((getAgentLocationMatchExpression (some ls)).getD []) = ls) ∧
    getAgentLocationMatchExpression none = none ∧
    getAgentLocationMatchExpression (some []) = none ∧
    getLocationsFromMatchExpressions [] = [] := by
  refine ⟨?_, rfl, rfl, rfl⟩
  intro ls hne
  have hlen : (ls.length != 0) = true := by
    cases ls with
    | nil => exact absurd rfl hne
    | cons a t => simp
  simp [getAgentLocationMatchExpression, hlen,
    getLocationsFromMatchExpressions, List.find?]

/-- C8 witness: the round trip on a concrete non-empty location list, via
the theorem. -/
theorem C8_witness :
    (["locA", "locB"] : List String) ≠ [] ∧
    getLocationsFromMatchExpressions
      ((getAgentLocationMatchExpression (some ["locA", "locB"])).getD [])
        = ["locA", "locB"] := by
  have h := C8_location_roundtrip.1 ["locA", "locB"] (by decide)
  exact ⟨by decide, h⟩

/-! ## C6: the alerts context is a passthrough over the reducer -/

/-- C6: after any sequence of context operations, the `alerts` value held
by `AlertsContextProvider` equals the left fold of the dispatched
`alertsSlice` actions by the reducer over the initial empty list — for
every reducer, hence in particular for `alertsSlice.reducer`. -/
theorem C6_alerts_passthrough_fold
    (alertsReducer : List AlertProps → AlertsSliceAction → List AlertProps)
    (ops : List AlertsContextOp) :
    providerAlerts alertsReducer ops
      = (ops.map opToAction).foldl alertsReducer [] := by
  rw [providerAlerts, List.foldl_map]

/-! ## C9: useAlerts never throws -/

/-- C9: `AlertsContext` is created with a non-undefined default, so
`useContext` never yields undefined, `useAlerts` never reaches its error
branch, and outside any provider it returns the default context. -/
theorem C9_useAlerts_total (providerValue : Option AlertsContextType) :
    (∃ c, useAlerts providerValue = Except.ok c) ∧
    useAlerts none = Except.ok defaultAlertsContext ∧
    (∀ v, useAlerts (some v) = Except.ok v) := by
  refine ⟨?_, rfl, fun v => rfl⟩
  cases providerValue with
  | none => exact ⟨defaultAlertsContext, rfl⟩
  | some v => exact ⟨v, rfl⟩

/-! ## C10: NetworkingStatus is a constant status mapping -/

/-- C10: for every cluster, host and validationsInfo prop,
`NetworkingStatus` renders `HostStatus` with `statusOverride`
`discovering`, an empty `validationsInfo` and an undefined `sublabel`;
the passed host and validationsInfo do not influence these props. -/
theorem C10_networking_status_constant (cluster : Cluster) (host : Host)
    (validationsInfo : ValidationsInfo) :
    (NetworkingStatus cluster host validationsInfo).statusOverride
        = some "discovering" ∧
    (NetworkingStatus cluster host validationsInfo).validationsInfo
        = emptyValidationsInfo ∧
    (NetworkingStatus cluster host validationsInfo).sublabel = none ∧
    (∀ vi2, NetworkingStatus cluster host vi2
        = NetworkingStatus cluster host validationsInfo) ∧
    (∀ host2 : Host,
      (NetworkingStatus cluster host2 validationsInfo).statusOverride
        = (NetworkingStatus cluster host validationsInfo).statusOverride) := by
  exact ⟨rfl, rfl, rfl, fun vi2 => rfl, fun host2 => rfl⟩
